import Mathlib

/-!
Shallow embedding of the two orchestration scripts of the repository
(`demo/simple_scalar_optimization/demo.py` and `tests/test_assimilator.py`)
over an abstract model of the external scientific stack
(`dolfin`, `dolfin_adjoint`, `pulse`) and of the `pulse_adjoint` library.

The scripts perform no arithmetic of their own: every scalar they pass
around (pressures, volumes, parameter values) is modelled as a rational
number, and every nontrivial external computation (mesh loading, the
nonlinear solve, the adjoint optimization, the cavity-volume evaluation)
is a field of an `Env` record supplied to the embedded scripts, so a run
is a pure function of the external stack's responses.
-/

namespace PulseAdjoint

/-- Identity of a Python exception propagating out of an external call or
a built-in container access. -/
inductive PyErr where
  | libErr (msg : String)
  | keyError (key : String)
  | indexError
deriving DecidableEq, Repr

/-- Descriptor of a `dolfin` function space as the scripts construct them:
`FunctionSpace(mesh, family, degree)` or `VectorFunctionSpace(...)`. -/
structure FunctionSpaceDesc where
  mesh : Nat
  family : String
  degree : Nat
  isVector : Bool
deriving DecidableEq, Repr

/-- Current value held by a `dolfin` function: either a scalar assigned from a
`Constant`, or an opaque reference to externally provided field data (the
geometry's fiber fields). A freshly constructed function is zero. -/
inductive FieldVal where
  | scalar (q : ℚ)
  | fieldRef (id : Nat)
deriving DecidableEq, Repr

/-- A `dolfin_adjoint.Function`: its space, optional name, and current value. -/
structure Func where
  space : FunctionSpaceDesc
  name : Option String
  value : FieldVal
deriving DecidableEq, Repr

/-- `Func.assignConst f q` models `f.assign(Constant(q))`. -/
def Func.assignConst (f : Func) (q : ℚ) : Func :=
  { f with value := .scalar q }

/-- A named `dolfin_adjoint.Constant`. -/
structure NamedConst where
  value : ℚ
  name : Option String
deriving DecidableEq, Repr

/-- Argument given to `geometry.ds(...)`: the demo passes the integer marker
id `markers[name][0]`, the test passes the whole `(id, dimension)` pair. -/
inductive DsArg where
  | id (marker : Nat)
  | pair (markerPair : Nat × Nat)
deriving DecidableEq, Repr

/-- A surface measure `geometry.ds(arg)`: the facet function it is built on
and the subdomain argument it received. -/
structure Measure where
  ffun : Nat
  arg : DsArg
deriving DecidableEq, Repr

/-- A `pulse.HeartGeometry`: mesh identity, the named marker table
(name to `(id, dimension)`), the facet function, and the fiber, sheet and
normal direction fields. -/
structure Geometry where
  mesh : Nat
  markerTable : List (String × Nat × Nat)
  ffun : Nat
  f0 : Func
  s0 : Func
  n0 : Func
deriving DecidableEq, Repr

/-- Dictionary access `geometry.markers[k]` (`none` models a `KeyError`). -/
def Geometry.marker? (g : Geometry) (k : String) : Option (Nat × Nat) :=
  (g.markerTable.find? (fun e => e.1 == k)).map (·.2)

/-- `geometry.ds(arg)`. -/
def Geometry.ds (g : Geometry) (a : DsArg) : Measure :=
  ⟨g.ffun, a⟩

/-- A value stored in the material parameter dictionary: either a plain
constant (the library defaults) or a `dolfin_adjoint.Function`. -/
inductive PVal where
  | const (q : ℚ)
  | func (f : Func)
deriving DecidableEq, Repr

/-- `pv.assign(Constant(v))` on the object stored in the parameter slot. -/
def PVal.assignScalar : PVal → ℚ → PVal
  | .const _, v => .const v
  | .func f, v => .func { f with value := .scalar v }

/-- The material parameter dictionary (`HolzapfelOgden.default_parameters()`
is a Python `dict`). -/
abbrev ParamDict := List (String × PVal)

/-- Python `d[k] = v`: replace the binding if the key is present, append
otherwise. -/
def dictSet (d : ParamDict) (k : String) (v : PVal) : ParamDict :=
  if d.any (fun e => e.1 == k) then
    d.map (fun e => if e.1 == k then (e.1, v) else e)
  else
    d ++ [(k, v)]

/-- Python `d[k]` as an optional lookup. -/
def dictGet? (d : ParamDict) (k : String) : Option PVal :=
  (d.find? (fun e => e.1 == k)).map (·.2)

/-- `material.a.assign(Constant(v))`: mutate the object stored under key
`"a"` of the parameter dictionary in place. -/
def dictAssign (d : ParamDict) (k : String) (v : ℚ) : ParamDict :=
  d.map (fun e => if e.1 == k then (e.1, e.2.assignScalar v) else e)

/-- The `pulse.HolzapfelOgden` material as the demo assembles it. -/
structure HolzapfelOgden where
  activation : Func
  parameters : ParamDict
  f0 : Func
  s0 : Func
  n0 : Func
deriving DecidableEq, Repr

/-- A `pulse.NeumannBC` as constructed by `create_problem`. -/
structure NeumannBC where
  traction : NamedConst
  marker : Nat
  name : Option String
deriving DecidableEq, Repr

/-- A `pulse.RobinBC` as constructed by `create_problem`. -/
structure RobinBC where
  value : NamedConst
  marker : Nat
deriving DecidableEq, Repr

/-- Structure of a `dolfin` function space as interrogated by the Dirichlet
closure: a primitive (scalar component, no sub-spaces) or a composite with a
list of sub-spaces (`VectorFunctionSpace`, mixed space). -/
inductive SpaceT where
  | prim : SpaceT
  | comp : List SpaceT → SpaceT

/-- `W.num_sub_spaces()`. -/
def SpaceT.numSubSpaces : SpaceT → Nat
  | .prim => 0
  | .comp l => l.length

/-- `W.sub(i)` (`none` models the `dolfin` error on a bad index). -/
def SpaceT.sub : SpaceT → Nat → Option SpaceT
  | .prim, _ => none
  | .comp l, i => l.get? i

/-- A `dolfin_adjoint.DirichletBC`: the constrained (sub-)space, the
prescribed value, the facet function and the facet marker id. -/
structure DirichletBC where
  space : SpaceT
  value : ℚ
  ffun : Nat
  marker : Nat

/-- The closure `fix_basal_plane` of `create_problem`: given the state space
`W`, take `W` itself when `W.sub(0)` has no sub-spaces and the displacement
sub-space `W.sub(0)` otherwise, and fix its sub-component 0 (the longitudinal
x-direction) to zero on the BASE-marked facets. -/
def fixBasalPlane (g : Geometry) (W : SpaceT) : Except PyErr DirichletBC :=
  match W.sub 0 with
  | none => .error (.libErr "sub")
  | some W0 =>
    match (if W0.numSubSpaces = 0 then W else W0).sub 0 with
    | none => .error (.libErr "sub")
    | some V0 =>
      match g.marker? "BASE" with
      | none => .error (.keyError "BASE")
      | some bp => .ok ⟨V0, 0, g.ffun, bp.1⟩

/-- `pulse.BoundaryConditions(dirichlet=..., neumann=..., robin=...)`.
Dirichlet entries are closures from the state space to a boundary
condition, exactly as in the script. -/
structure BoundaryConditions where
  dirichlet : List (SpaceT → Except PyErr DirichletBC)
  neumann : List NeumannBC
  robin : List RobinBC

/-- A `pulse.MechanicsProblem`: geometry, material, boundary conditions and
the (initially unsolved) PDE state, the latter an opaque identity produced
by the external nonlinear solver. -/
structure MechanicsProblem where
  geometry : Geometry
  material : HolzapfelOgden
  bcs : BoundaryConditions
  state : Option Nat

/-- `problem.material.a.assign(Constant(v))`. -/
def MechanicsProblem.assignMatA (p : MechanicsProblem) (v : ℚ) : MechanicsProblem :=
  { p with material := { p.material with parameters := dictAssign p.material.parameters "a" v } }

/-- A `pulse_adjoint.model_observations.VolumeObservation` as the scripts
construct it. -/
structure VolumeObservation where
  mesh : Nat
  dmu : Measure
  description : Option String
deriving DecidableEq, Repr

/-- A `pulse_adjoint.OptimizationTarget`: measured data series paired with
an observation model. -/
structure OptimizationTarget where
  data : List ℚ
  model : VolumeObservation
  collect : Bool
deriving DecidableEq, Repr

/-- A `pulse_adjoint.model_observations.BoundaryObservation`: a Neumann
boundary condition paired with its measured series. -/
structure BoundaryObservation where
  bc : NeumannBC
  data : List ℚ
deriving DecidableEq, Repr

/-- A `pulse_adjoint.Assimilator` as the scripts construct it. -/
structure Assimilator where
  problem : MechanicsProblem
  targets : List OptimizationTarget
  bcs : BoundaryObservation
  control : Func

/-- All measured volume data carried by an assimilator's targets. -/
def Assimilator.targetData (A : Assimilator) : List ℚ :=
  (A.targets.map OptimizationTarget.data).flatten

/-- The external stack's responses for one run: the loaded geometry, the
material defaults, and the outcomes of the optimization, the nonlinear
solve, the cavity-volume evaluation and the volume-observation evaluation.
The embedded scripts are pure functions of this record. -/
structure Env where
  fromFile : Except PyErr Geometry
  defaultParams : ParamDict
  assimilate : Assimilator → Except PyErr ℚ
  solve : MechanicsProblem → Except PyErr Nat
  cavityVolume : Nat → ℚ
  evalVolumeObs : VolumeObservation → Func → ℚ

/-- The pure part of `create_problem` once the geometry is loaded and both
marker lookups have succeeded: build the activation and control functions
on a real (`"R"`, degree 0) space, inject the control into the parameter
dictionary under `"a"`, copy the fiber fields, and assemble the material,
the three boundary-condition groups and the mechanics problem. -/
def buildProblem (env : Env) (geometry : Geometry) (lvMarker baseMarker : Nat) :
    MechanicsProblem × Func :=
  let rspace : FunctionSpaceDesc := ⟨geometry.mesh, "R", 0, false⟩
  let activation : Func := Func.assignConst ⟨rspace, some "activation", .scalar 0⟩ 0
  let control : Func := Func.assignConst ⟨rspace, none, .scalar 0⟩ 1
  let matparams : ParamDict := dictSet env.defaultParams "a" (.func control)
  let f0 : Func := { space := geometry.f0.space, name := none, value := geometry.f0.value }
  let s0 : Func := { space := geometry.s0.space, name := none, value := geometry.s0.value }
  let n0 : Func := { space := geometry.n0.space, name := none, value := geometry.n0.value }
  let material : HolzapfelOgden := ⟨activation, matparams, f0, s0, n0⟩
  let lvp : NamedConst := ⟨0, some "lvp"⟩
  let lvPressure : NeumannBC := ⟨lvp, lvMarker, some "lv"⟩
  let baseSpring : NamedConst := ⟨1, some "base_spring"⟩
  let bcs : BoundaryConditions :=
    ⟨[fixBasalPlane geometry], [lvPressure], [⟨baseSpring, baseMarker⟩]⟩
  let problem : MechanicsProblem := ⟨geometry, material, bcs, none⟩
  (problem, control)

/-- `create_problem()` of the demo script: load the geometry, resolve the
`"ENDO"` and `"BASE"` markers (taking the id component of each pair), and
assemble the problem and the control handle.  The test script's
`fixtures.create_problem` is not under `src/`; per the spec the test is a
near-duplicate using the same builder, so both scripts share this
embedding. -/
def createProblem (env : Env) : Except PyErr (MechanicsProblem × Func) :=
  match env.fromFile with
  | .error e => .error e
  | .ok geometry =>
    match geometry.marker? "ENDO" with
    | none => .error (.keyError "ENDO")
    | some ep =>
      match geometry.marker? "BASE" with
      | none => .error (.keyError "BASE")
      | some bp => .ok (buildProblem env geometry ep.1 bp.1)

/-- One printed console line of either script. -/
inductive PrintLine where
  | targetVolume (q : ℚ)
  | modelVolume (q : ℚ)
  | estimatedParams (q : ℚ)
  | bare (q : ℚ)
deriving DecidableEq, Repr

/-- Observable side effects of a run: a write to an attribute of an
imported module, a printed line, or entering the interactive shell. -/
inductive Effect where
  | moduleSet (modName attrName : String) (value : Bool)
  | println (l : PrintLine)
  | interactiveEmbed
deriving DecidableEq, Repr

/-- The effect trace of a run together with its outcome. -/
structure RunResult (α : Type) where
  trace : List Effect
  result : Except PyErr α

/-- The printed lines of a trace, in order. -/
def printLines (t : List Effect) : List PrintLine :=
  t.filterMap (fun e => match e with | .println l => some l | _ => none)

/-- The module-attribute writes of a trace, in order. -/
def moduleWrites (t : List Effect) : List (String × String × Bool) :=
  t.filterMap (fun e => match e with | .moduleSet m a v => some (m, a, v) | _ => none)

/-- The demo's volume observation: resolve the `"ENDO"` marker id and build
`VolumeObservation(problem.geometry.mesh, problem.geometry.ds(endo))`. -/
def demoVolumeObservation (p : MechanicsProblem) : Except PyErr VolumeObservation :=
  match p.geometry.marker? "ENDO" with
  | none => .error (.keyError "ENDO")
  | some ep => .ok ⟨p.geometry.mesh, p.geometry.ds (.id ep.1), none⟩

/-- The test's volume observation: `VolumeObservation(mesh=geo.mesh,
dmu=geo.ds(geo.markers["ENDO"]), description="Test LV volume")` — note the
measure receives the whole `(id, dimension)` pair. -/
def testVolumeObservation (geo : Geometry) : Except PyErr VolumeObservation :=
  match geo.marker? "ENDO" with
  | none => .error (.keyError "ENDO")
  | some ep => .ok ⟨geo.mesh, geo.ds (.pair ep), some "Test LV volume"⟩

/-- `main()` of the demo script.  On success it returns the final problem,
the re-solved model volume, and the estimated parameter value.  The
`u, p = dolfin.split(problem.state)` and `cavity_volume(u=u)` lines are
modelled by applying the external cavity-volume evaluator to the solved
state. -/
def demoMain (env : Env) : RunResult (MechanicsProblem × ℚ × ℚ) :=
  match createProblem env with
  | .error e => ⟨[.moduleSet "pulse.annotation" "annotate" true], .error e⟩
  | .ok (problem, control) =>
    match demoVolumeObservation problem with
    | .error e => ⟨[.moduleSet "pulse.annotation" "annotate" true], .error e⟩
    | .ok volumeModel =>
      match problem.bcs.neumann.get? 0 with
      | none => ⟨[.moduleSet "pulse.annotation" "annotate" true], .error .indexError⟩
      | some nbc =>
        match env.assimilate
            ⟨problem, [⟨[mkRat 14 5], volumeModel, false⟩], ⟨nbc, [mkRat 1 10]⟩, control⟩ with
        | .error e => ⟨[.moduleSet "pulse.annotation" "annotate" true], .error e⟩
        | .ok a =>
          match env.solve (problem.assignMatA a) with
          | .error e => ⟨[.moduleSet "pulse.annotation" "annotate" true], .error e⟩
          | .ok st =>
            ⟨[.moduleSet "pulse.annotation" "annotate" true,
              .println (.targetVolume (mkRat 14 5)),
              .println (.modelVolume (env.cavityVolume st)),
              .println (.estimatedParams a)],
             .ok ({ problem.assignMatA a with state := some st }, env.cavityVolume st, a)⟩

/-- `main()` of the test script.  It builds the same problem through
`fixtures.create_problem` (not under `src/`; see `createProblem`), evaluates
the volume observation on a fresh zero CG2 vector function, prints that one
value, runs `assimilate()` discarding its result, and drops into an
interactive shell (`embed(); exit()`), performing no post-assimilation
mutation or re-solve.  On success it returns the problem as last seen by
the script. -/
def testMain (env : Env) : RunResult MechanicsProblem :=
  match createProblem env with
  | .error e => ⟨[], .error e⟩
  | .ok (problem, control) =>
    match testVolumeObservation problem.geometry with
    | .error e => ⟨[], .error e⟩
    | .ok volumeObs =>
      match problem.bcs.neumann.get? 0 with
      | none =>
        ⟨[.println (.bare (env.evalVolumeObs volumeObs
            ⟨⟨problem.geometry.mesh, "CG", 2, true⟩, none, .scalar 0⟩))],
         .error .indexError⟩
      | some nbc =>
        match env.assimilate
            ⟨problem, [⟨[mkRat 27 10, mkRat 29 10], volumeObs, true⟩],
             ⟨nbc, [mkRat 1 2, 1]⟩, control⟩ with
        | .error e =>
          ⟨[.println (.bare (env.evalVolumeObs volumeObs
              ⟨⟨problem.geometry.mesh, "CG", 2, true⟩, none, .scalar 0⟩))],
           .error e⟩
        | .ok _ =>
          ⟨[.println (.bare (env.evalVolumeObs volumeObs
              ⟨⟨problem.geometry.mesh, "CG", 2, true⟩, none, .scalar 0⟩)),
            .interactiveEmbed],
           .ok problem⟩

/-- Modelled from the spec: `pulse_adjoint.Assimilator.assimilate` is code of
this repository that is not under `src/` (only its callers are).  Per the
spec it runs one optimization to convergence, so that the optimal control
it returns, once assigned to the material parameter and the problem
re-solved, yields observed volumes within the solver tolerance `tol` of
every measured target volume. -/
def AssimilateContract (env : Env) (tol : ℚ) : Prop :=
  ∀ A a, env.assimilate A = .ok a →
    ∀ st, env.solve (A.problem.assignMatA a) = .ok st →
      ∀ v ∈ A.targetData, |env.cavityVolume st - v| ≤ tol

/-! ### Concrete instances used to witness the theorems -/

/-- A concrete stand-in for the packaged `simple_ellipsoid` geometry, with
the usual BASE / ENDO / EPI facet markers. -/
def simpleEllipsoidGeo : Geometry :=
  { mesh := 0
  , markerTable := [("BASE", 10, 2), ("ENDO", 30, 2), ("EPI", 40, 2)]
  , ffun := 1
  , f0 := ⟨⟨0, "Quadrature", 4, true⟩, some "f0", .fieldRef 100⟩
  , s0 := ⟨⟨0, "Quadrature", 4, true⟩, some "s0", .fieldRef 101⟩
  , n0 := ⟨⟨0, "Quadrature", 4, true⟩, some "n0", .fieldRef 102⟩ }

/-- A concrete environment whose optimizer succeeds exactly on the demo's
target data, whose solver succeeds, and whose cavity-volume evaluator
reports the demo's target volume. -/
def envW : Env :=
  { fromFile := .ok simpleEllipsoidGeo
  , defaultParams := [("a", .const (mkRat 59 100)), ("b", .const 2)]
  , assimilate := fun A => if A.targetData = [mkRat 14 5] then .ok 1 else .error (.libErr "optimizer")
  , solve := fun _ => .ok 0
  , cavityVolume := fun _ => mkRat 14 5
  , evalVolumeObs := fun _ _ => mkRat 21 10 }

/-- A concrete environment whose optimizer always returns the value `1/2`. -/
def envW2 : Env :=
  { envW with assimilate := fun _ => .ok (mkRat 1 2) }

/-- A concrete environment whose geometry file is missing. -/
def envErr : Env :=
  { envW with fromFile := .error (.libErr "FileNotFoundError") }

/-- Fallback problem used by the extraction helpers below. -/
def junkProblem : MechanicsProblem :=
  ⟨simpleEllipsoidGeo, ⟨⟨⟨0, "R", 0, false⟩, none, .scalar 0⟩, [], ⟨⟨0, "R", 0, false⟩, none, .scalar 0⟩, ⟨⟨0, "R", 0, false⟩, none, .scalar 0⟩, ⟨⟨0, "R", 0, false⟩, none, .scalar 0⟩⟩, ⟨[], [], []⟩, none⟩

/-- The problem built by `create_problem` under `envW`. -/
def createdW : MechanicsProblem :=
  match createProblem envW with
  | .ok pc => pc.1
  | .error _ => junkProblem

/-- The control handle returned by `create_problem` under `envW`. -/
def controlW : Func :=
  match createProblem envW with
  | .ok pc => pc.2
  | .error _ => ⟨⟨0, "R", 0, false⟩, none, .scalar 1⟩

/-- The final problem of a successful demo run under `envW`. -/
def demoFinalW : MechanicsProblem :=
  match (demoMain envW).result with
  | .ok r => r.1
  | .error _ => junkProblem

/-- The Dirichlet boundary condition produced by the basal-plane closure on
a plain (non-mixed) three-component vector space, under the concrete
geometry. -/
def bcVecW : DirichletBC :=
  match fixBasalPlane simpleEllipsoidGeo (SpaceT.comp [.prim, .prim, .prim]) with
  | .ok bc => bc
  | .error _ => ⟨.prim, 9, 9, 9⟩

/-- The final problem of a successful test run under `envW2`. -/
def testFinalW : MechanicsProblem :=
  match (testMain envW2).result with
  | .ok p => p
  | .error _ => junkProblem

/-- The demo's volume observation under `envW`. -/
def demoObsW : VolumeObservation :=
  match demoVolumeObservation createdW with
  | .ok o => o
  | .error _ => ⟨9, ⟨9, .id 9⟩, none⟩

/-! ### Dictionary lemmas -/

lemma dictGet_map_assign (d : ParamDict) (k : String) (v : PVal)
    (h : d.any (fun e => e.1 == k) = true) :
    dictGet? (d.map (fun e => if e.1 == k then (e.1, v) else e)) k = some v := by
  induction d with
  | nil => simp at h
  | cons e tl ih =>
    by_cases he : e.1 = k
    · simp [dictGet?, List.find?, he]
    · have hbeq : (e.1 == k) = false := by simp [he]
      have htl : tl.any (fun e => e.1 == k) = true := by
        rw [List.any_cons, hbeq, Bool.false_or] at h
        exact h
      have hrec := ih htl
      show dictGet? ((if e.1 == k then (e.1, v) else e) :: tl.map _) k = some v
      rw [if_neg (by simp [hbeq])]
      unfold dictGet?
      rw [List.find?_cons_of_neg _ (by simp [hbeq])]
      exact hrec

lemma dictGet_dictSet_self (d : ParamDict) (k : String) (v : PVal) :
    dictGet? (dictSet d k v) k = some v := by
  unfold dictSet
  by_cases h : d.any (fun e => e.1 == k) = true
  · rw [if_pos h]
    exact dictGet_map_assign d k v h
  · rw [if_neg h]
    have hfind : d.find? (fun e => e.1 == k) = none := by
      rw [List.find?_eq_none]
      intro x hx
      intro hxk
      exact h (List.any_eq_true.mpr ⟨x, hx, hxk⟩)
    unfold dictGet?
    rw [List.find?_append, hfind]
    simp [List.find?]

/-! ### Structural lemmas about the embedded runs -/

lemma createProblem_ok (env : Env) (p : MechanicsProblem) (c : Func)
    (h : createProblem env = .ok (p, c)) :
    ∃ g ep bp, env.fromFile = .ok g ∧ g.marker? "ENDO" = some ep ∧
      g.marker? "BASE" = some bp ∧ p = (buildProblem env g ep.1 bp.1).1 ∧
      c = (buildProblem env g ep.1 bp.1).2 := by
  unfold createProblem at h
  split at h
  next e he => simp at h
  next g hg =>
    split at h
    next hep => simp at h
    next ep hep =>
      split at h
      next hbp => simp at h
      next bp hbp =>
        simp only [Except.ok.injEq] at h
        exact ⟨g, ep, bp, hg, hep, hbp,
          (congrArg Prod.fst h).symm, (congrArg Prod.snd h).symm⟩

lemma createProblem_error (env : Env) (e : PyErr)
    (h : createProblem env = .error e) :
    env.fromFile = .error e ∨ e = .keyError "ENDO" ∨ e = .keyError "BASE" := by
  unfold createProblem at h
  split at h
  next e' he => simp only [Except.error.injEq] at h; exact Or.inl (he.trans (h ▸ rfl))
  next g hg =>
    split at h
    next hep => simp only [Except.error.injEq] at h; exact Or.inr (Or.inl h.symm)
    next ep hep =>
      split at h
      next hbp => simp only [Except.error.injEq] at h; exact Or.inr (Or.inr h.symm)
      next bp hbp => simp at h

lemma demoMain_ok_shape (env : Env) (pF : MechanicsProblem) (vol a : ℚ)
    (h : (demoMain env).result = .ok (pF, vol, a)) :
    ∃ p0 c st A, createProblem env = .ok (p0, c) ∧
      A.problem = p0 ∧ A.control = c ∧ A.targetData = [mkRat 14 5] ∧
      env.assimilate A = .ok a ∧
      env.solve (p0.assignMatA a) = .ok st ∧
      vol = env.cavityVolume st ∧
      pF = { p0.assignMatA a with state := some st } ∧
      (demoMain env).trace =
        [.moduleSet "pulse.annotation" "annotate" true,
         .println (.targetVolume (mkRat 14 5)),
         .println (.modelVolume vol),
         .println (.estimatedParams a)] := by
  unfold demoMain at h ⊢
  split at h
  next e he => simp at h
  next p0 c hcp =>
    split at h
    next e hobs => simp at h
    next vm hobs =>
      split at h
      next hnb => simp at h
      next nbc hnb =>
        split at h
        next e ha => simp at h
        next aval ha =>
          split at h
          next e hs => simp at h
          next st hs =>
            simp only [Except.ok.injEq, Prod.mk.injEq] at h
            obtain ⟨hpF, hvol, haval⟩ := h
            subst haval
            refine ⟨p0, c, st, _, hcp, rfl, rfl, ?_, ha, hs, hvol.symm, hpF.symm, ?_⟩
            · simp [Assimilator.targetData]
            · rw [← hvol]

lemma demoMain_error_shape (env : Env) (e : PyErr)
    (h : (demoMain env).result = .error e) :
    (env.fromFile = .error e ∨ (∃ k, e = .keyError k) ∨ e = .indexError ∨
     (∃ A, env.assimilate A = .error e) ∨ (∃ p', env.solve p' = .error e)) ∧
    (demoMain env).trace = [.moduleSet "pulse.annotation" "annotate" true] := by
  unfold demoMain at h ⊢
  split at h
  next e' hcp =>
    simp only [Except.error.injEq] at h
    subst h
    refine ⟨?_, rfl⟩
    rcases createProblem_error env e' hcp with h1 | h2 | h3
    · exact Or.inl h1
    · exact Or.inr (Or.inl ⟨"ENDO", h2⟩)
    · exact Or.inr (Or.inl ⟨"BASE", h3⟩)
  next p0 c hcp =>
    split at h
    next e' hobs =>
      simp only [Except.error.injEq] at h
      subst h
      refine ⟨?_, rfl⟩
      unfold demoVolumeObservation at hobs
      split at hobs
      next h2 => simp only [Except.error.injEq] at hobs; exact Or.inr (Or.inl ⟨"ENDO", hobs.symm⟩)
      next ep h2 => simp at hobs
    next vm hobs =>
      split at h
      next hnb =>
        simp only [Except.error.injEq] at h
        subst h
        exact ⟨Or.inr (Or.inr (Or.inl rfl)), rfl⟩
      next nbc hnb =>
        split at h
        next e' ha =>
          simp only [Except.error.injEq] at h
          subst h
          exact ⟨Or.inr (Or.inr (Or.inr (Or.inl ⟨_, ha⟩))), rfl⟩
        next aval ha =>
          split at h
          next e' hs =>
            simp only [Except.error.injEq] at h
            subst h
            exact ⟨Or.inr (Or.inr (Or.inr (Or.inr ⟨_, hs⟩))), rfl⟩
          next st hs => simp at h

lemma testMain_ok_shape (env : Env) (pF : MechanicsProblem)
    (h : (testMain env).result = .ok pF) :
    ∃ p0 c obs A aval, createProblem env = .ok (p0, c) ∧ pF = p0 ∧
      testVolumeObservation p0.geometry = .ok obs ∧
      A.problem = p0 ∧ A.control = c ∧ env.assimilate A = .ok aval ∧
      (testMain env).trace =
        [.println (.bare (env.evalVolumeObs obs ⟨⟨p0.geometry.mesh, "CG", 2, true⟩, none, .scalar 0⟩)),
         .interactiveEmbed] := by
  unfold testMain at h ⊢
  split at h
  next e hcp => simp at h
  next p0 c hcp =>
    split at h
    next e hobs => simp at h
    next obs hobs =>
      split at h
      next hnb => simp at h
      next nbc hnb =>
        split at h
        next e ha => simp at h
        next aval ha =>
          simp only [Except.ok.injEq] at h
          subst h
          exact ⟨p0, c, obs, _, aval, hcp, rfl, hobs, rfl, rfl, ha, rfl⟩

lemma testMain_error_shape (env : Env) (e : PyErr)
    (h : (testMain env).result = .error e) :
    (env.fromFile = .error e ∨ (∃ k, e = .keyError k) ∨ e = .indexError ∨
     (∃ A, env.assimilate A = .error e)) ∧
    Effect.interactiveEmbed ∉ (testMain env).trace := by
  unfold testMain at h ⊢
  split at h
  next e' hcp =>
    simp only [Except.error.injEq] at h
    subst h
    refine ⟨?_, by simp⟩
    rcases createProblem_error env e' hcp with h1 | h2 | h3
    · exact Or.inl h1
    · exact Or.inr (Or.inl ⟨"ENDO", h2⟩)
    · exact Or.inr (Or.inl ⟨"BASE", h3⟩)
  next p0 c hcp =>
    split at h
    next e' hobs =>
      simp only [Except.error.injEq] at h
      subst h
      refine ⟨?_, by simp⟩
      unfold testVolumeObservation at hobs
      split at hobs
      next h2 => simp only [Except.error.injEq] at hobs; exact Or.inr (Or.inl ⟨"ENDO", hobs.symm⟩)
      next ep h2 => simp at hobs
    next obs hobs =>
      split at h
      next hnb =>
        simp only [Except.error.injEq] at h
        subst h
        exact ⟨Or.inr (Or.inr (Or.inl rfl)), by simp⟩
      next nbc hnb =>
        split at h
        next e' ha =>
          simp only [Except.error.injEq] at h
          subst h
          exact ⟨Or.inr (Or.inr (Or.inr ⟨_, ha⟩)), by simp⟩
        next aval ha => simp at h

/-! ### Claim theorems -/

/-- Claim C3: `create_problem` always returns a pair whose problem carries
exactly one Dirichlet closure (the basal-plane fix), exactly one Neumann
pressure load on the ENDO marker, and exactly one Robin spring on the BASE
marker, and whose control is injected into the material's parameter set
under key `"a"` before the material is assembled. -/
theorem create_problem_structure (env : Env) (p : MechanicsProblem) (c : Func)
    (h : createProblem env = .ok (p, c)) :
    ∃ g ep bp, env.fromFile = .ok g ∧
      g.marker? "ENDO" = some ep ∧ g.marker? "BASE" = some bp ∧
      p.bcs.dirichlet = [fixBasalPlane g] ∧
      p.bcs.neumann = [⟨⟨0, some "lvp"⟩, ep.1, some "lv"⟩] ∧
      p.bcs.robin = [⟨⟨1, some "base_spring"⟩, bp.1⟩] ∧
      dictGet? p.material.parameters "a" = some (.func c) := by
  obtain ⟨g, ep, bp, hg, hep, hbp, hp, hc⟩ := createProblem_ok env p c h
  subst hp; subst hc
  exact ⟨g, ep, bp, hg, hep, hbp, rfl, rfl, rfl, dictGet_dictSet_self _ _ _⟩

/-- Witness for C3 at the concrete environment. -/
theorem create_problem_structure_witness :
    dictGet? createdW.material.parameters "a" = some (.func controlW) := by
  obtain ⟨g, ep, bp, _, _, _, _, _, _, ha⟩ :=
    create_problem_structure envW createdW controlW rfl
  exact ha

/-- Claim C10: the control returned by `create_problem` is a scalar function
on a real (`"R"`, degree 0) space initialized to `1.0` and installed as
material parameter `"a"`, and the material's activation is a scalar function
on the same kind of space initialized to `0.0`. -/
theorem control_and_activation_init (env : Env) (p : MechanicsProblem) (c : Func)
    (h : createProblem env = .ok (p, c)) :
    ∃ g, env.fromFile = .ok g ∧
      c.space = ⟨g.mesh, "R", 0, false⟩ ∧ c.value = .scalar 1 ∧
      dictGet? p.material.parameters "a" = some (.func c) ∧
      p.material.activation.space = ⟨g.mesh, "R", 0, false⟩ ∧
      p.material.activation.value = .scalar 0 := by
  obtain ⟨g, ep, bp, hg, hep, hbp, hp, hc⟩ := createProblem_ok env p c h
  subst hp; subst hc
  exact ⟨g, hg, rfl, rfl, dictGet_dictSet_self _ _ _, rfl, rfl⟩

/-- Witness for C10 at the concrete environment. -/
theorem control_and_activation_init_witness :
    controlW.value = .scalar 1 ∧ createdW.material.activation.value = .scalar 0 := by
  obtain ⟨g, _, _, hc1, _, _, ha0⟩ :=
    control_and_activation_init envW createdW controlW rfl
  exact ⟨hc1, ha0⟩

/-- Claim C9: the basal-plane Dirichlet closure fixes sub-component 0 to
zero on the BASE-marked facets, applying this directly to `W` when
`W.sub(0)` has no sub-spaces and to the displacement sub-space `W.sub(0)`
otherwise, so the same closure serves mixed and non-mixed state spaces. -/
theorem fix_basal_plane_components (g : Geometry) (W : SpaceT) (bc : DirichletBC)
    (h : fixBasalPlane g W = .ok bc) :
    ∃ W0, W.sub 0 = some W0 ∧ bc.value = 0 ∧ bc.ffun = g.ffun ∧
      (∃ d, g.marker? "BASE" = some (bc.marker, d)) ∧
      ((W0.numSubSpaces = 0 ∧ bc.space = W0) ∨
       (W0.numSubSpaces ≠ 0 ∧ W0.sub 0 = some bc.space)) := by
  unfold fixBasalPlane at h
  split at h
  next hW0 => simp at h
  next W0 hW0 =>
    split at h
    next hV0 => simp at h
    next V0 hV0 =>
      split at h
      next hbm => simp at h
      next bp hbm =>
        simp only [Except.ok.injEq] at h
        subst h
        refine ⟨W0, hW0, rfl, rfl, ⟨bp.2, hbm⟩, ?_⟩
        by_cases hn : W0.numSubSpaces = 0
        · left
          refine ⟨hn, ?_⟩
          rw [if_pos hn] at hV0
          have h2 := hW0.symm.trans hV0
          injection h2 with h2
          exact h2.symm
        · right
          refine ⟨hn, ?_⟩
          rw [if_neg hn] at hV0
          exact hV0

/-- Witness for C9: on a concrete plain vector space the closure produces a
zero-valued condition on the geometry's facet function at the BASE marker. -/
theorem fix_basal_plane_components_witness :
    bcVecW.value = 0 ∧ bcVecW.ffun = 1 ∧ bcVecW.marker = 10 := by
  obtain ⟨W0, hW0, hv, hf, ⟨d, hm⟩, hcase⟩ :=
    fix_basal_plane_components simpleEllipsoidGeo (SpaceT.comp [.prim, .prim, .prim]) bcVecW rfl
  refine ⟨hv, hf.trans rfl, ?_⟩
  have hm2 : (some ((10 : ℕ), (2 : ℕ)) : Option (ℕ × ℕ)) = some (bcVecW.marker, d) := hm
  injection hm2 with hm3
  exact (congrArg Prod.fst hm3).symm

/-- Claim C4 (amended): every boundary-condition and observation
construction resolves its marker from the geometry's named table; the
demo's constructions (Neumann, Robin, Dirichlet closure, volume
observation) all receive the integer id `markers[name][0]`, while the test
script's volume observation passes the whole `(id, dimension)` pair to
`geo.ds`. -/
theorem marker_argument_resolution (env : Env) (p : MechanicsProblem) (c : Func)
    (h : createProblem env = .ok (p, c)) :
    ∃ g ep bp, env.fromFile = .ok g ∧
      g.marker? "ENDO" = some ep ∧ g.marker? "BASE" = some bp ∧
      (∀ bc ∈ p.bcs.neumann, bc.marker = ep.1) ∧
      (∀ bc ∈ p.bcs.robin, bc.marker = bp.1) ∧
      (∀ W bc, fixBasalPlane g W = .ok bc → bc.marker = bp.1) ∧
      (∀ obs, demoVolumeObservation p = .ok obs → obs.dmu.arg = .id ep.1) ∧
      (∀ obs, testVolumeObservation g = .ok obs → obs.dmu.arg = .pair ep) := by
  obtain ⟨g, ep, bp, hg, hep, hbp, hp, hc⟩ := createProblem_ok env p c h
  subst hp; subst hc
  refine ⟨g, ep, bp, hg, hep, hbp, ?_, ?_, ?_, ?_, ?_⟩
  · intro bc hbc
    have h1 : (buildProblem env g ep.1 bp.1).1.bcs.neumann =
        [⟨⟨0, some "lvp"⟩, ep.1, some "lv"⟩] := rfl
    rw [h1, List.mem_singleton] at hbc
    subst hbc; rfl
  · intro bc hbc
    have h1 : (buildProblem env g ep.1 bp.1).1.bcs.robin =
        [⟨⟨1, some "base_spring"⟩, bp.1⟩] := rfl
    rw [h1, List.mem_singleton] at hbc
    subst hbc; rfl
  · intro W bc hbc
    unfold fixBasalPlane at hbc
    split at hbc
    next => simp at hbc
    next W0 hW0 =>
      split at hbc
      next => simp at hbc
      next V0 hV0 =>
        split at hbc
        next => simp at hbc
        next bp' hbp' =>
          have h2 := hbp.symm.trans hbp'
          injection h2 with h2
          simp only [Except.ok.injEq] at hbc
          subst hbc
          rw [h2]
  · intro obs ho
    unfold demoVolumeObservation at ho
    split at ho
    next heq => simp at ho
    next ep' heq =>
      have heq' : g.marker? "ENDO" = some ep' := heq
      have h2 := hep.symm.trans heq'
      injection h2 with h2
      simp only [Except.ok.injEq] at ho
      subst ho
      rw [h2]
      rfl
  · intro obs ho
    unfold testVolumeObservation at ho
    split at ho
    next heq => simp at ho
    next ep' heq =>
      have h2 := hep.symm.trans heq
      injection h2 with h2
      simp only [Except.ok.injEq] at ho
      subst ho
      rw [h2]
      rfl

/-- Witness for C4 (amended) at the concrete environment: the demo's volume
observation receives the plain integer marker id. -/
theorem marker_argument_resolution_witness : demoObsW.dmu.arg = DsArg.id 30 := by
  obtain ⟨g, ep, bp, hg, hep, _, _, _, _, hdemo, _⟩ :=
    marker_argument_resolution envW createdW controlW rfl
  have hg2 : (Except.ok simpleEllipsoidGeo : Except PyErr Geometry) = Except.ok g := hg
  injection hg2 with hgg
  subst hgg
  have hep2 : (some ((30 : ℕ), (2 : ℕ)) : Option (ℕ × ℕ)) = some ep := hep
  injection hep2 with hepp
  subst hepp
  exact hdemo demoObsW rfl

/-- Counterexample for C4 as stated: the test script's volume observation
passes the full `(id, dimension)` pair to `geo.ds`, not the integer id. -/
theorem test_observation_receives_pair :
    testVolumeObservation simpleEllipsoidGeo =
      .ok ⟨0, ⟨1, DsArg.pair (30, 2)⟩, some "Test LV volume"⟩ ∧
    DsArg.pair (30, 2) ≠ DsArg.id 30 :=
  ⟨rfl, by decide⟩

lemma assimilateContract_envW : AssimilateContract envW 0 := by
  intro A a hA st hst v hv
  have hA' : (if A.targetData = [mkRat 14 5] then Except.ok 1
      else Except.error (PyErr.libErr "optimizer")) = Except.ok a := hA
  split at hA'
  next hdata =>
    injection hA' with h1
    rw [hdata] at hv
    simp only [List.mem_singleton] at hv
    subst hv
    show |mkRat 14 5 - mkRat 14 5| ≤ 0
    simp
  next hdata => simp at hA'

/-- Claim C1: under the modelled convergence contract of
`Assimilator.assimilate`, a successful demo run reports a re-solved cavity
volume within the solver tolerance of the target volume `2.8`. -/
theorem demo_volume_matches_target (env : Env) (tol : ℚ)
    (pF : MechanicsProblem) (vol a : ℚ)
    (hc : AssimilateContract env tol)
    (h : (demoMain env).result = .ok (pF, vol, a)) :
    |vol - mkRat 14 5| ≤ tol := by
  obtain ⟨p0, c, st, A, hcp, hAp, hAc, hAd, ha, hs, hvol, hpF, htr⟩ :=
    demoMain_ok_shape env pF vol a h
  subst hvol
  exact hc A a ha st (by rw [hAp]; exact hs) (mkRat 14 5) (by rw [hAd]; simp)

/-- Witness for C1 at the concrete environment, where the tolerance is zero
and the reported volume equals the target exactly. -/
theorem demo_volume_matches_target_witness :
    |mkRat 14 5 - mkRat 14 5| ≤ (0 : ℚ) :=
  demo_volume_matches_target envW 0 demoFinalW (mkRat 14 5) 1 assimilateContract_envW rfl

/-- Claim C2 (amended): after `assimilate()` returns in the demo driver, the
driver assigns the optimized value to material parameter `"a"`, re-solves,
and changes nothing else of the problem: geometry, boundary conditions,
activation and fiber fields are untouched, the parameter dictionary changes
only by the in-place assignment to `"a"`, and the state becomes the freshly
solved one. -/
theorem demo_report_frame (env : Env) (pF : MechanicsProblem) (vol a : ℚ)
    (h : (demoMain env).result = .ok (pF, vol, a)) :
    ∃ p0 c st, createProblem env = .ok (p0, c) ∧
      env.solve (p0.assignMatA a) = .ok st ∧
      pF.geometry = p0.geometry ∧
      pF.bcs = p0.bcs ∧
      pF.material.activation = p0.material.activation ∧
      pF.material.f0 = p0.material.f0 ∧
      pF.material.s0 = p0.material.s0 ∧
      pF.material.n0 = p0.material.n0 ∧
      pF.material.parameters = dictAssign p0.material.parameters "a" a ∧
      pF.state = some st := by
  obtain ⟨p0, c, st, A, hcp, hAp, hAc, hAd, ha, hs, hvol, hpF, htr⟩ :=
    demoMain_ok_shape env pF vol a h
  subst hpF
  exact ⟨p0, c, st, hcp, hs, rfl, rfl, rfl, rfl, rfl, rfl, rfl, rfl⟩

/-- Witness for C2 (amended) at the concrete environment: the final demo
problem carries the freshly solved state. -/
theorem demo_report_frame_witness : demoFinalW.state = some 0 := by
  obtain ⟨p0, c, st, hcp, hs, _, _, _, _, _, _, _, hst⟩ :=
    demo_report_frame envW demoFinalW (mkRat 14 5) 1 rfl
  have hs2 : (Except.ok 0 : Except PyErr ℕ) = Except.ok st := hs
  injection hs2 with h2
  rw [hst, ← h2]

/-- Counterexample for C2 as stated: the test script is also a run of the
assimilation driver, and under an environment whose optimizer returns `1/2`
its final problem still holds the initial parameter value `1` and was never
re-solved. -/
theorem test_run_no_mutation :
    dictGet? testFinalW.material.parameters "a" =
      some (.func ⟨⟨0, "R", 0, false⟩, none, .scalar 1⟩) ∧
    testFinalW.state = none ∧
    FieldVal.scalar 1 ≠ FieldVal.scalar (mkRat 1 2) := by
  refine ⟨rfl, rfl, ?_⟩
  simp only [ne_eq, FieldVal.scalar.injEq]
  norm_num [Rat.mkRat_eq_div]

/-- Claim C5 (amended): the demo script performs exactly one module-level
attribute write, `pulse.annotation.annotate = True`, on every run, and the
test script performs none; all other data flows through locals and
arguments. -/
theorem module_attribute_writes (env : Env) :
    moduleWrites (demoMain env).trace = [("pulse.annotation", "annotate", true)] ∧
    moduleWrites (testMain env).trace = [] := by
  constructor
  · unfold demoMain
    split
    · rfl
    next p0 c hcp =>
      split
      · rfl
      next vm hobs =>
        split
        · rfl
        next nbc hnb =>
          split
          · rfl
          next aval ha =>
            split
            · rfl
            · rfl
  · unfold testMain
    split
    · rfl
    next p0 c hcp =>
      split
      · rfl
      next obs hobs =>
        split
        · rfl
        next nbc hnb =>
          split
          · rfl
          · rfl

/-- Counterexample for C5 as stated: the demo run writes an attribute of the
imported `pulse.annotation` module. -/
theorem demo_writes_module_attribute :
    moduleWrites (demoMain envW).trace ≠ [] := by decide

/-- Claim C6 (amended): a successful demo run prints exactly the three lines
(target volume, model volume, estimated parameter), while a successful test
run prints a single line (the observed model volume). -/
theorem printed_lines (env : Env) :
    (∀ pF vol a, (demoMain env).result = .ok (pF, vol, a) →
       printLines (demoMain env).trace =
         [.targetVolume (mkRat 14 5), .modelVolume vol, .estimatedParams a]) ∧
    (∀ pF, (testMain env).result = .ok pF →
       ∃ m, printLines (testMain env).trace = [.bare m]) := by
  constructor
  · intro pF vol a h
    obtain ⟨p0, c, st, A, hcp, hAp, hAc, hAd, ha, hs, hvol, hpF, htr⟩ :=
      demoMain_ok_shape env pF vol a h
    rw [htr]
    rfl
  · intro pF h
    obtain ⟨p0, c, obs, A, aval, hcp, hpF, hobs, hAp, hAc, ha, htr⟩ :=
      testMain_ok_shape env pF h
    exact ⟨_, by rw [htr]; rfl⟩

/-- Witness for C6 (amended) at the concrete environment. -/
theorem printed_lines_witness :
    printLines (demoMain envW).trace =
      [.targetVolume (mkRat 14 5), .modelVolume (mkRat 14 5), .estimatedParams 1] :=
  (printed_lines envW).1 demoFinalW (mkRat 14 5) 1 rfl

/-- Counterexample for C6 as stated: a successful test run prints one line,
not three. -/
theorem test_prints_one_line :
    (testMain envW2).result.isOk = true ∧
    (printLines (testMain envW2).trace).length = 1 ∧ (1 : ℕ) ≠ 3 := by
  refine ⟨by decide, by decide, by decide⟩

/-- Claim C7: every failure surfacing in a run is the unmodified exception
of an external call (geometry loading, optimizer, solver) or of a built-in
container access (a `KeyError` or `IndexError`), and no recovery happens:
a failed demo run prints nothing, and a failed test run never reaches the
interactive shell. -/
theorem error_unmodified_propagation (env : Env) (e : PyErr)
    (h : (demoMain env).result = .error e ∨ (testMain env).result = .error e) :
    (env.fromFile = .error e ∨ (∃ k, e = .keyError k) ∨ e = .indexError ∨
     (∃ A, env.assimilate A = .error e) ∨ (∃ p', env.solve p' = .error e)) ∧
    ((demoMain env).result = .error e → printLines (demoMain env).trace = []) ∧
    ((testMain env).result = .error e → Effect.interactiveEmbed ∉ (testMain env).trace) := by
  refine ⟨?_, ?_, ?_⟩
  · rcases h with h | h
    · exact (demoMain_error_shape env e h).1
    · rcases (testMain_error_shape env e h).1 with h1 | h2 | h3 | h4
      · exact Or.inl h1
      · exact Or.inr (Or.inl h2)
      · exact Or.inr (Or.inr (Or.inl h3))
      · exact Or.inr (Or.inr (Or.inr (Or.inl h4)))
  · intro hd
    rw [(demoMain_error_shape env e hd).2]
    rfl
  · intro ht
    exact (testMain_error_shape env e ht).2

/-- Witness for C7 at a concrete environment with a missing geometry file:
the failed demo run prints nothing. -/
theorem error_unmodified_propagation_witness :
    printLines (demoMain envErr).trace = [] :=
  (error_unmodified_propagation envErr (.libErr "FileNotFoundError") (Or.inl rfl)).2.1 rfl

/-- Claim C8: the scripts are deterministic given the external stack's
responses: two runs whose environments agree on every external call produce
identical results and traces, so any difference between reruns can come
only from the external solver itself. -/
theorem runs_deterministic (env1 env2 : Env)
    (h1 : env1.fromFile = env2.fromFile)
    (h2 : env1.defaultParams = env2.defaultParams)
    (h3 : env1.assimilate = env2.assimilate)
    (h4 : env1.solve = env2.solve)
    (h5 : env1.cavityVolume = env2.cavityVolume)
    (h6 : env1.evalVolumeObs = env2.evalVolumeObs) :
    demoMain env1 = demoMain env2 ∧ testMain env1 = testMain env2 := by
  obtain ⟨f1, d1, a1, s1, cv1, ev1⟩ := env1
  obtain ⟨f2, d2, a2, s2, cv2, ev2⟩ := env2
  have g1 : f1 = f2 := h1
  have g2 : d1 = d2 := h2
  have g3 : a1 = a2 := h3
  have g4 : s1 = s2 := h4
  have g5 : cv1 = cv2 := h5
  have g6 : ev1 = ev2 := h6
  subst g1; subst g2; subst g3; subst g4; subst g5; subst g6
  exact ⟨rfl, rfl⟩

/-- Witness for C8: the hypotheses hold for the concrete environment paired
with itself. -/
theorem runs_deterministic_witness :
    demoMain envW = demoMain envW ∧ testMain envW = testMain envW :=
  runs_deterministic envW envW rfl rfl rfl rfl rfl rfl

end PulseAdjoint
